import Mathlib

/-!
Verification of the electabuzz UDP client core
(src/py/core/electabuzz_client.py) against its specification.

The Python module is shallowly embedded:

* machine integers become `Nat`/`Int` with explicit range checks where the
  source performs them;
* raw datagrams are `List Nat` (one entry per byte);
* the msgpack payload codec is an external library, so payloads at the
  value level are modelled as the sequence of decoded msgpack items
  (`MsgItem`) rather than raw bytes — the encoding is self-describing, so
  one item corresponds to one encoded value on the wire;
* Python exceptions become an explicit `PyErr` error type threaded through
  `Except`;
* the socket is modelled as an environment `Nat → RecvEvent δ` giving, for
  each receive attempt, either a timeout, a connection refusal, or a
  datagram.
-/

set_option maxHeartbeats 1000000

namespace Electabuzz

/-! ## Constants from the top of electabuzz_client.py -/

def EB_TYPE_NIL : Nat := 0x00
def EB_TYPE_BOOL : Nat := 0x01
def EB_TYPE_UINT8 : Nat := 0x02
def EB_TYPE_INT8 : Nat := 0x03
def EB_TYPE_UINT16 : Nat := 0x04
def EB_TYPE_INT16 : Nat := 0x05
def EB_TYPE_UINT32 : Nat := 0x06
def EB_TYPE_INT32 : Nat := 0x07
def EB_TYPE_UINT64 : Nat := 0x08
def EB_TYPE_INT64 : Nat := 0x09
def EB_TYPE_FLOAT : Nat := 0x0a
def EB_TYPE_DOUBLE : Nat := 0x0b
def EB_TYPE_STR : Nat := 0x0c
def EB_TYPE_BIN : Nat := 0x0d
def EB_TYPE_UNKOWN : Nat := 0xFF

/-- The `EbPacketType` enumeration of the source. -/
inductive EbPacketType where
  | EB_MT_PROCESSING_ERR
  | EB_MT_NOT_SUPPORTED
  | EB_MT_TIMEOUT
  | EB_MT_PING_REQ
  | EB_MT_READ_DATA_REQ
  | EB_MT_WRITE_DATA_REQ
  | EB_MT_READ_DESC_REQ
  | EB_MT_CLIENTS_REQ
  | EB_MT_PING_RSP
  | EB_MT_READ_DATA_RSP
  | EB_MT_WRITE_DATA_RSP
  | EB_MT_READ_DESC_RSP
  | EB_MT_CLIENTS_RSP
deriving DecidableEq

/-- Numeric value of each `EbPacketType` member. -/
def EbPacketType.val : EbPacketType → Nat
  | .EB_MT_PROCESSING_ERR => 0x0000
  | .EB_MT_NOT_SUPPORTED => 0x0001
  | .EB_MT_TIMEOUT => 0x0002
  | .EB_MT_PING_REQ => 0x1000
  | .EB_MT_READ_DATA_REQ => 0x1001
  | .EB_MT_WRITE_DATA_REQ => 0x1002
  | .EB_MT_READ_DESC_REQ => 0x1003
  | .EB_MT_CLIENTS_REQ => 0x1004
  | .EB_MT_PING_RSP => 0x2000
  | .EB_MT_READ_DATA_RSP => 0x2001
  | .EB_MT_WRITE_DATA_RSP => 0x2002
  | .EB_MT_READ_DESC_RSP => 0x2003
  | .EB_MT_CLIENTS_RSP => 0x2004

/-- Python `EbPacketType(n)`: by-value lookup, `none` models the
`ValueError` raised for a value that is not a member. -/
def ebPacketTypeOfNat : Nat → Option EbPacketType
  | 0x0000 => some .EB_MT_PROCESSING_ERR
  | 0x0001 => some .EB_MT_NOT_SUPPORTED
  | 0x0002 => some .EB_MT_TIMEOUT
  | 0x1000 => some .EB_MT_PING_REQ
  | 0x1001 => some .EB_MT_READ_DATA_REQ
  | 0x1002 => some .EB_MT_WRITE_DATA_REQ
  | 0x1003 => some .EB_MT_READ_DESC_REQ
  | 0x1004 => some .EB_MT_CLIENTS_REQ
  | 0x2000 => some .EB_MT_PING_RSP
  | 0x2001 => some .EB_MT_READ_DATA_RSP
  | 0x2002 => some .EB_MT_WRITE_DATA_RSP
  | 0x2003 => some .EB_MT_READ_DESC_RSP
  | 0x2004 => some .EB_MT_CLIENTS_RSP
  | _ => none

/-- The `EbResult` enumeration of the source. -/
inductive EbResult where
  | EB_OK
  | EB_ERR_NOT_FOUND
  | EB_ERR_OTHER
  | EB_ERR_NOT_UNIQUE
  | EB_ERR_NOT_IMPLEMENTED
  | EB_ERR_WRONG_PARAMETER
  | EB_ERR_NO_MEMORY
  | EB_ERR_INTERNAL_ERR
  | EB_ERR_MSG_FORMAT
  | EB_ERR_OVERFLOW
  | EB_ERR_TYPE
  | EB_ERR_CALLBACK
  | EB_ERR_READ_ONLY
  | EB_ERR_LENGTH_MISMATCH
  | EB_ERR_TIMEOUT
  | EB_ERR_CONNECTION
deriving DecidableEq

/-- Numeric value of each `EbResult` member. -/
def EbResult.val : EbResult → Nat
  | .EB_OK => 0x0000
  | .EB_ERR_NOT_FOUND => 0x0001
  | .EB_ERR_OTHER => 0x0004
  | .EB_ERR_NOT_UNIQUE => 0x0005
  | .EB_ERR_NOT_IMPLEMENTED => 0x0006
  | .EB_ERR_WRONG_PARAMETER => 0x0007
  | .EB_ERR_NO_MEMORY => 0x0008
  | .EB_ERR_INTERNAL_ERR => 0x0009
  | .EB_ERR_MSG_FORMAT => 0x000A
  | .EB_ERR_OVERFLOW => 0x000B
  | .EB_ERR_TYPE => 0x000C
  | .EB_ERR_CALLBACK => 0x000D
  | .EB_ERR_READ_ONLY => 0x000E
  | .EB_ERR_LENGTH_MISMATCH => 0x000F
  | .EB_ERR_TIMEOUT => 0x0010
  | .EB_ERR_CONNECTION => 0xF000

/-- Python `EbResult(n)`: by-value lookup, `none` models the `ValueError`
raised for a value that is not a member. -/
def ebResultOfInt : Int → Option EbResult
  | 0x0000 => some .EB_OK
  | 0x0001 => some .EB_ERR_NOT_FOUND
  | 0x0004 => some .EB_ERR_OTHER
  | 0x0005 => some .EB_ERR_NOT_UNIQUE
  | 0x0006 => some .EB_ERR_NOT_IMPLEMENTED
  | 0x0007 => some .EB_ERR_WRONG_PARAMETER
  | 0x0008 => some .EB_ERR_NO_MEMORY
  | 0x0009 => some .EB_ERR_INTERNAL_ERR
  | 0x000A => some .EB_ERR_MSG_FORMAT
  | 0x000B => some .EB_ERR_OVERFLOW
  | 0x000C => some .EB_ERR_TYPE
  | 0x000D => some .EB_ERR_CALLBACK
  | 0x000E => some .EB_ERR_READ_ONLY
  | 0x000F => some .EB_ERR_LENGTH_MISMATCH
  | 0x0010 => some .EB_ERR_TIMEOUT
  | 0xF000 => some .EB_ERR_CONNECTION
  | _ => none

/-- The module-level `eb_result_dict` (note: it stops at 0x000F, so the
`EB_ERR_TIMEOUT` and `EB_ERR_CONNECTION` values raise `KeyError` when
looked up). -/
def eb_result_dict : List (Nat × String) :=
  [(0x0000, "EB_OK"),
   (0x0001, "EB_ERR_NOT_FOUND"),
   (0x0004, "EB_ERR_OTHER"),
   (0x0005, "EB_ERR_NOT_UNIQUE"),
   (0x0006, "EB_ERR_NOT_IMPLEMENTED"),
   (0x0007, "EB_ERR_WRONG_PARAMETER"),
   (0x0008, "EB_ERR_NO_MEMORY"),
   (0x0009, "EB_ERR_INTERNAL_ERR"),
   (0x000A, "EB_ERR_MSG_FORMAT"),
   (0x000B, "EB_ERR_OVERFLOW"),
   (0x000C, "EB_ERR_TYPE"),
   (0x000D, "EB_ERR_CALLBACK"),
   (0x000E, "EB_ERR_READ_ONLY"),
   (0x000F, "EB_ERR_LENGTH_MISMATCH")]

/-- Python exceptions that the embedded code can raise. `nameError`
stands for the `UnboundLocalError`/`NameError` family. -/
inductive PyErr where
  | nameError
  | valueError
  | typeError
  | structError
  | outOfData
  | keyError
deriving DecidableEq

/-! ## Python dict operations (insertion-ordered association lists) -/

/-- Python `d[k]` lookup as an `Option` (first matching key). -/
def dictFind {κ α : Type} [DecidableEq κ] (d : List (κ × α)) (k : κ) : Option α :=
  match d.find? (fun kv => kv.1 = k) with
  | some kv => some kv.2
  | none => none

/-- Python `k in d`. -/
def dictHasKey {κ α : Type} [DecidableEq κ] (d : List (κ × α)) (k : κ) : Bool :=
  d.any (fun kv => kv.1 = k)

/-- Python `d[k] = v`: update in place when the key exists, else append
(Python dicts preserve insertion order). -/
def dictSet {κ α : Type} [DecidableEq κ] (d : List (κ × α)) (k : κ) (v : α) :
    List (κ × α) :=
  if d.any (fun kv => kv.1 = k) then
    d.map (fun kv => if kv.1 = k then (k, v) else kv)
  else
    d ++ [(k, v)]

/-- Python `dict.fromkeys(ks)`: every key maps to `None`. -/
def dictFromKeys {κ α : Type} [DecidableEq κ] (ks : List κ) : List (κ × Option α) :=
  ks.foldl (fun d k => dictSet d k none) []

/-! ## Client state and the packet codec (byte level) -/

/-- The part of the `Client` object state that the protocol engine
mutates: the transaction counter (`self.transaction_id`). -/
structure CState where
  transaction_id : Nat
deriving DecidableEq

/-- `Client.__init__` sets `self.transaction_id = 0`. -/
def initState : CState := ⟨0⟩

/-- `Client._next_transaction_id`: increment and wrap to 0 after 0xFFFF. -/
def next_transaction_id (t : Nat) : Nat :=
  if t + 1 > 0xFFFF then 0 else t + 1

/-- Big-endian 16-bit serialization of one `struct.pack(">H", n)` field. -/
def u16be (n : Nat) : List Nat := [n / 256 % 256, n % 256]

/-- Read a big-endian 16-bit field at byte offset `i`. -/
def rd16 (raw : List Nat) (i : Nat) : Nat :=
  raw.getD i 0 * 256 + raw.getD (i + 1) 0

/-- `Client._create_packet`: advances the transaction counter, then packs
`version=0, transaction_id, type.value, len(payload)` big-endian followed
by the payload. `struct.pack(">H", n)` raises `struct.error` when a field
exceeds 0xFFFF; only the payload length can (the counter always stays
below 0x10000 and message type values are small), hence the `Option`. -/
def create_packet (st : CState) (ty : EbPacketType) (payload : List Nat) :
    CState × Option (List Nat) :=
  let tid := next_transaction_id st.transaction_id
  (⟨tid⟩,
   if payload.length > 0xFFFF then none
   else some (u16be 0 ++ u16be tid ++ u16be ty.val ++ u16be payload.length ++ payload))

/-- A parsed packet, with payload representation `π` (raw bytes at the
byte level, decoded msgpack items at the value level). The Python dict
built by `Client._parse_packet` has exactly the keys `version`,
`transaction_id`, `type` and `payload`. -/
structure EbPkt (π : Type) where
  version : Nat
  transaction_id : Nat
  type : EbPacketType
  payload : π
deriving DecidableEq

/-- `Client._parse_packet`. For an input shorter than 8 bytes, the source
evaluates `len(packet)` inside the error message, but the local variable
`packet` is only assigned later, so the call raises `UnboundLocalError`
(modelled as `.error .nameError`) instead of reaching its `return None`.
For 8 or more bytes, `struct.unpack(">HHHH", raw[0:8])` reads version
(bytes 0-1), transaction id (2-3), message type (4-5) and the declared
payload length (6-7, unpacked but never stored in the result dict), and
the remainder is the payload. An unknown message type value makes
`EbPacketType(header[2])` raise `ValueError`. -/
def parse_packet (raw : List Nat) : Except PyErr (EbPkt (List Nat)) :=
  match raw with
  | b0 :: b1 :: b2 :: b3 :: b4 :: b5 :: _ :: _ :: rest =>
    match ebPacketTypeOfNat (b4 * 256 + b5) with
    | none => .error .valueError
    | some ty => .ok ⟨b0 * 256 + b1, b2 * 256 + b3, ty, rest⟩
  | _ => .error .nameError

/-- Values stored in the dict returned by `Client._parse_packet`. -/
inductive PktVal where
  | nat : Nat → PktVal
  | ptype : EbPacketType → PktVal
  | bytes : List Nat → PktVal
deriving DecidableEq

/-- The Python dict literally built by `Client._parse_packet` (lines
127-132 assign exactly these four keys, in this order; the declared
payload length from the header is not stored). -/
def packet_dict (p : EbPkt (List Nat)) : List (String × PktVal) :=
  [("version", .nat p.version),
   ("transaction_id", .nat p.transaction_id),
   ("type", .ptype p.type),
   ("payload", .bytes p.payload)]

/-! ## The transaction coordinator `Client._tx_rx`

The loop is written once, generic in the type `τ` of the transmitted
request, the type `δ` of received datagrams and the payload
representation `π`, together with the datagram decoder `parse`
(`Client._parse_packet` at the byte level, the identity at the value
level where the environment hands over already-decoded packets). -/

/-- One receive attempt's outcome as seen from the socket:
`asyncio.TimeoutError`, `ConnectionRefusedError`, or a datagram. -/
inductive RecvEvent (δ : Type) where
  | timeout
  | refused
  | datagram (raw : δ)
deriving DecidableEq

/-- What one iteration of the `_tx_rx` loop body decides: retry (with the
`skip_tx` flag for the next iteration and the `result` assigned before
`continue`), accept the response, or propagate an exception raised by the
datagram decoder. -/
inductive StepRes (π : Type) where
  | retry (skip : Bool) (r : EbResult)
  | accept (p : EbPkt π)
  | raise (e : PyErr)
deriving DecidableEq

/-- The receive-and-validate part of one `_tx_rx` loop iteration
(lines 147-194 of the source): timeout and connection refusal map to
`EB_ERR_TIMEOUT`/`EB_ERR_CONNECTION`; then the decoded packet is checked
for version 0, the current transaction id (a mismatch sets
`skip_tx = True`), the server-reported-timeout type, and the expected
response type; passing all checks returns the packet. -/
def attemptOutcome {δ π : Type} (parse : δ → Except PyErr (EbPkt π))
    (txid : Nat) (response_type : EbPacketType) (ev : RecvEvent δ) : StepRes π :=
  match ev with
  | .timeout => .retry false .EB_ERR_TIMEOUT
  | .refused => .retry false .EB_ERR_CONNECTION
  | .datagram raw =>
    match parse raw with
    | .error e => .raise e
    | .ok p =>
      if p.version ≠ 0 then .retry false .EB_ERR_MSG_FORMAT
      else if p.transaction_id ≠ txid then .retry true .EB_ERR_MSG_FORMAT
      else if p.type = .EB_MT_TIMEOUT then .retry false .EB_ERR_TIMEOUT
      else if p.type ≠ response_type then .retry false .EB_ERR_MSG_FORMAT
      else .accept p

/-- Result of `Client._tx_rx`: the accepted packet, the final
`result` value on exhaustion (`none` when `n_tries = 0`, since `result`
starts as `None`), or a propagated exception. -/
inductive TxRxRet (π : Type) where
  | ok (p : EbPkt π)
  | err (r : Option EbResult)
  | exn (e : PyErr)
deriving DecidableEq

/-- The `for i in range(0, n_tries)` loop of `Client._tx_rx`, indexed by
the attempt number `i` and the remaining attempts `fuel`, carrying the
`skip_tx` flag and the accumulated `result`. Returns the list of
transmissions performed (each one is the unchanged `tx_packet`) together
with the loop's outcome. -/
def txRxGo {τ δ π : Type} (parse : δ → Except PyErr (EbPkt π)) (txid : Nat)
    (tx_packet : τ) (response_type : EbPacketType) (env : Nat → RecvEvent δ) :
    Nat → Nat → Bool → Option EbResult → List τ × TxRxRet π
  | _, 0, _, result => ([], .err result)
  | i, fuel + 1, skip_tx, _ =>
    let txs : List τ := if skip_tx then [] else [tx_packet]
    match attemptOutcome parse txid response_type (env i) with
    | .raise e => (txs, .exn e)
    | .accept p => (txs, .ok p)
    | .retry sk r =>
      let rest := txRxGo parse txid tx_packet response_type env (i + 1) fuel sk (some r)
      (txs ++ rest.1, rest.2)

/-- `Client._tx_rx`: run the loop from attempt 0 with `skip_tx = False`
and `result = None`. -/
def tx_rx {τ δ π : Type} (parse : δ → Except PyErr (EbPkt π)) (txid : Nat)
    (tx_packet : τ) (response_type : EbPacketType) (n_tries : Nat)
    (env : Nat → RecvEvent δ) : List τ × TxRxRet π :=
  txRxGo parse txid tx_packet response_type env 0 n_tries false none

/-! ## The value codec (msgpack payloads, modelled at the item level)

msgpack is an external library; its binary encoding is self-describing,
so a payload is modelled as the list of encoded items in wire order.
`unpacker.tell() < payload_len` holds exactly while items remain, and
`unpacker.unpack()` on an exhausted buffer raises (modelled `.outOfData`).
IEEE rounding of float values is abstracted: an item records the chosen
wire width (`f32`/`f64`) and the exact numeric value handed to the
packer. -/

/-- One msgpack-encoded item as it appears in a payload. -/
inductive MsgItem where
  | nil
  | bool (b : Bool)
  | int (n : Int)
  | f32 (q : Rat)
  | f64 (q : Rat)
  | str (s : String)
  | arr (xs : List MsgItem)

/-- A Python value passed to `Client.single_write` (the shapes the client
actually sends: scalars and arrays of scalars). -/
inductive PyValue where
  | nil
  | bool (b : Bool)
  | int (n : Int)
  | float (q : Rat)
  | list (vs : List PyValue)

mutual

/-- `msgpack.Packer(use_single_float=u).pack`: a Python float becomes a
32-bit item iff `use_single_float` is set; integers stay integers. -/
def pack (u : Bool) : PyValue → MsgItem
  | .nil => .nil
  | .bool b => .bool b
  | .int n => .int n
  | .float q => if u then .f32 q else .f64 q
  | .list vs => .arr (packList u vs)

/-- `pack` mapped over the elements of a Python list. -/
def packList (u : Bool) : List PyValue → List MsgItem
  | [] => []
  | v :: vs => pack u v :: packList u vs

end

/-- Python `float(v)` on the value shapes above: exact for ints and
floats, 1/0 for bools; `None` and lists raise `TypeError` (modelled as
`none`). -/
def pyFloat : PyValue → Option Rat
  | .nil => none
  | .bool b => some (if b then 1 else 0)
  | .int n => some (n : Rat)
  | .float q => some q
  | .list _ => none

/-- Lines 255-266 of `Client.single_write`: choose `use_single_float`
when the declared type is `EB_TYPE_FLOAT`; for a declared `EB_TYPE_DOUBLE`
or `EB_TYPE_FLOAT` coerce the value (elementwise for a list) with
`float(...)` before packing; the payload is `pack(id_code) + pack(value)`. -/
def single_write_payload (id_code : Int) (value : PyValue) (eb_type : Option Nat) :
    Except PyErr (List MsgItem) :=
  let use_single_float := eb_type = some EB_TYPE_FLOAT
  if eb_type = some EB_TYPE_DOUBLE ∨ eb_type = some EB_TYPE_FLOAT then
    match value with
    | .list vs =>
      match vs.mapM pyFloat with
      | none => .error .typeError
      | some qs =>
        .ok [pack use_single_float (.int id_code),
             pack use_single_float (.list (qs.map PyValue.float))]
    | v =>
      match pyFloat v with
      | none => .error .typeError
      | some q =>
        .ok [pack use_single_float (.int id_code),
             pack use_single_float (.float q)]
  else
    .ok [pack use_single_float (.int id_code), pack use_single_float value]

/-- The integer a Python `Enum` by-value lookup would compare an unpacked
item against (Python equality makes bools and whole floats alias ints). -/
def msgItemEnumInt : MsgItem → Option Int
  | .int n => some n
  | .bool b => some (if b then 1 else 0)
  | .f32 q => if q.den = 1 then some q.num else none
  | .f64 q => if q.den = 1 then some q.num else none
  | _ => none

/-- `EbResult(unpacker.unpack())` applied to one item: `ValueError` when
the item is not (equal to) a member value. -/
def msgItemToEbResult (it : MsgItem) : Except PyErr EbResult :=
  match msgItemEnumInt it with
  | none => .error .valueError
  | some n =>
    match ebResultOfInt n with
    | none => .error .valueError
    | some r => .ok r

/-- The response-parsing loop of `Client.single_write` (lines 282-294):
repeatedly unpack an id (non-int, out-of-range, or mismatching ids return
`EB_ERR_MSG_FORMAT`), then a result code; the last decoded result code —
initialised to `EB_ERR_NOT_FOUND` before the loop — is returned. -/
def write_resp_go (id_code : Int) : List MsgItem → EbResult → Except PyErr EbResult
  | [], rc => .ok rc
  | [dpItem], _ =>
    match dpItem with
    | .int n =>
      if n < 0 ∨ n > 0xFFFF then .ok .EB_ERR_MSG_FORMAT
      else if n ≠ id_code then .ok .EB_ERR_MSG_FORMAT
      else .error .outOfData
    | _ => .ok .EB_ERR_MSG_FORMAT
  | dpItem :: rcItem :: rest, _ =>
    match dpItem with
    | .int n =>
      if n < 0 ∨ n > 0xFFFF then .ok .EB_ERR_MSG_FORMAT
      else if n ≠ id_code then .ok .EB_ERR_MSG_FORMAT
      else
        match msgItemToEbResult rcItem with
        | .error e => .error e
        | .ok rc2 => write_resp_go id_code rest rc2
    | _ => .ok .EB_ERR_MSG_FORMAT

/-- One entry of the `results` dict built by `Client.multi_read`: the
Python dict has keys `data_point_id`, `result_code` (the numeric value),
`result_string`, `data_type` (always `None`), and — only when the result
code is `EB_OK` — `num_elements` and `value`. -/
structure ReadOutcome where
  data_point_id : Int
  result_code : Nat
  result_string : String
  data_type : Option MsgItem
  num_elements : Option Nat
  value : Option MsgItem

/-- The response-parsing loop of `Client.multi_read` (lines 222-246),
returning the `(dp_id, result)` assignments in wire order. `.ok none`
models the `return None` taken for a non-int or out-of-range id;
exceptions come from `EbResult(...)` (`ValueError`), the
`eb_result_dict[...]` lookup (`KeyError`), and unpacking past the end of
the payload (`OutOfData`). -/
def read_resp_go : List MsgItem → Except PyErr (Option (List (Int × ReadOutcome)))
  | [] => .ok (some [])
  | [dpItem] =>
    match dpItem with
    | .int n =>
      if n < 0 ∨ n > 0xFFFF then .ok none
      else .error .outOfData
    | _ => .ok none
  | dpItem :: rcItem :: rest1 =>
    match dpItem with
    | .int n =>
      if n < 0 ∨ n > 0xFFFF then .ok none
      else
        match msgItemToEbResult rcItem with
        | .error e => .error e
        | .ok rc =>
          match dictFind eb_result_dict rc.val with
          | none => .error .keyError
          | some rs =>
            if rc = .EB_OK then
              match rest1 with
              | [] => .error .outOfData
              | vItem :: rest2 =>
                let ne := match vItem with
                  | .arr xs => xs.length
                  | _ => 1
                match read_resp_go rest2 with
                | .error e => .error e
                | .ok none => .ok none
                | .ok (some ts) =>
                  .ok (some ((n, ⟨n, rc.val, rs, none, some ne, some vItem⟩) :: ts))
            else
              match read_resp_go rest1 with
              | .error e => .error e
              | .ok none => .ok none
              | .ok (some ts) =>
                .ok (some ((n, ⟨n, rc.val, rs, none, none, none⟩) :: ts))
    | _ => .ok none

/-- Assembling the `results` dict of `Client.multi_read`:
`dict.fromkeys(id_codes)` followed by one `results[dp_id] = result`
assignment per decoded triplet. -/
def mrAssemble (id_codes : List Int) (ts : List (Int × ReadOutcome)) :
    List (Int × Option ReadOutcome) :=
  ts.foldl (fun d t => dictSet d t.1 (some t.2)) (dictFromKeys id_codes)

/-! ## The client API at the value level

Packets here carry their payload as decoded msgpack items; received
datagrams arrive as `Except PyErr PacketI`, i.e. with the packet codec's
outcome supplied by the environment (the codec itself is verified at the
byte level above). -/

/-- A packet whose payload is the list of msgpack items it carries. -/
def PacketI : Type := EbPkt (List MsgItem)

/-- Datagram decoder for the value level: the environment already hands
over the parse outcome. -/
def parseI (x : Except PyErr PacketI) : Except PyErr PacketI := x

/-- `Client._create_packet` at the value level: advance the transaction
counter and build the version-0 packet (header serialization and its
length check live in the byte-level `create_packet`). -/
def create_packetI (st : CState) (ty : EbPacketType) (payload : List MsgItem) :
    CState × PacketI :=
  (⟨next_transaction_id st.transaction_id⟩,
   ⟨0, next_transaction_id st.transaction_id, ty, payload⟩)

/-- Result of `Client.multi_read`: the `results` dict, `None`, or a
propagated exception. -/
inductive MRRet where
  | dict (d : List (Int × Option ReadOutcome))
  | nullRet
  | raised (e : PyErr)

/-- Result of `Client.single_write`: an `EbResult`, `None`, or a
propagated exception. -/
inductive SWRet where
  | result (r : EbResult)
  | nullRet
  | raised (e : PyErr)
deriving DecidableEq

/-- Result of `Client.get_connected_clients`: the `(EB_OK, clients)`
pair, `None`, or a propagated exception. -/
inductive GCRet where
  | pair (r : EbResult) (clients : MsgItem)
  | nullRet
  | raised (e : PyErr)

/-- `Client.multi_read`. Any out-of-range id makes the loop building the
request payload return `None` before a packet is created (counter
untouched, nothing transmitted). Otherwise the payload packs the ids in
caller order, one `_tx_rx` exchange runs with `n_tries = 3`, and on an
accepted response the payload is decoded into the `results` dict. The
`.err none` branch models the `TypeError` Python would raise on
subscripting a `None` returned by an exhausted `_tx_rx` with
`n_tries = 0`; it is unreachable here since 3 attempts are passed. -/
def multi_read (st : CState) (id_codes : List Int)
    (env : Nat → RecvEvent (Except PyErr PacketI)) :
    CState × List PacketI × MRRet :=
  if id_codes.any (fun id => id < 0 ∨ id > 0xFFFF) then
    (st, [], .nullRet)
  else
    let payload := id_codes.map (fun id => MsgItem.int id)
    let stp := create_packetI st .EB_MT_READ_DATA_REQ payload
    match tx_rx parseI stp.1.transaction_id stp.2 .EB_MT_READ_DATA_RSP 3 env with
    | (txs, .err (some _)) => (stp.1, txs, .nullRet)
    | (txs, .err none) => (stp.1, txs, .raised .typeError)
    | (txs, .exn e) => (stp.1, txs, .raised e)
    | (txs, .ok resp) =>
      match read_resp_go resp.payload with
      | .error e => (stp.1, txs, .raised e)
      | .ok none => (stp.1, txs, .nullRet)
      | .ok (some ts) => (stp.1, txs, .dict (mrAssemble id_codes ts))

/-- `Client.single_write`. An out-of-range id returns
`EB_ERR_WRONG_PARAMETER` before any packet is created or transmitted;
otherwise the coerced payload is built, one `_tx_rx` exchange runs with
`n_tries = 3`, and an accepted response is folded by `write_resp_go`
starting from `EB_ERR_NOT_FOUND`. -/
def single_write (st : CState) (id_code : Int) (value : PyValue)
    (eb_type : Option Nat) (env : Nat → RecvEvent (Except PyErr PacketI)) :
    CState × List PacketI × SWRet :=
  if id_code < 0 ∨ id_code > 0xFFFF then
    (st, [], .result .EB_ERR_WRONG_PARAMETER)
  else
    match single_write_payload id_code value eb_type with
    | .error e => (st, [], .raised e)
    | .ok payload =>
      let stp := create_packetI st .EB_MT_WRITE_DATA_REQ payload
      match tx_rx parseI stp.1.transaction_id stp.2 .EB_MT_WRITE_DATA_RSP 3 env with
      | (txs, .err (some _)) => (stp.1, txs, .nullRet)
      | (txs, .err none) => (stp.1, txs, .raised .typeError)
      | (txs, .exn e) => (stp.1, txs, .raised e)
      | (txs, .ok resp) =>
        match write_resp_go id_code resp.payload .EB_ERR_NOT_FOUND with
        | .error e => (stp.1, txs, .raised e)
        | .ok rc => (stp.1, txs, .result rc)

/-- `Client.get_connected_clients`: an empty request payload, one
`_tx_rx` exchange with `n_tries = 3`, then `unpacker.unpack()` on the
response payload (raising `OutOfData` when it is empty) paired with
`EB_OK`. -/
def get_connected_clients (st : CState)
    (env : Nat → RecvEvent (Except PyErr PacketI)) :
    CState × List PacketI × GCRet :=
  let stp := create_packetI st .EB_MT_CLIENTS_REQ []
  match tx_rx parseI stp.1.transaction_id stp.2 .EB_MT_CLIENTS_RSP 3 env with
  | (txs, .err (some _)) => (stp.1, txs, .nullRet)
  | (txs, .err none) => (stp.1, txs, .raised .typeError)
  | (txs, .exn e) => (stp.1, txs, .raised e)
  | (txs, .ok resp) =>
    match resp.payload with
    | [] => (stp.1, txs, .raised .outOfData)
    | c :: _ => (stp.1, txs, .pair .EB_OK c)

/-! ## Helper lemmas -/

/-- When every receive attempt times out, the loop transmits once per
attempt and finishes with `EB_ERR_TIMEOUT` (or the incoming `result` when
no attempts remain). -/
theorem txRxGo_all_timeout {τ δ π : Type} (parse : δ → Except PyErr (EbPkt π))
    (txid : Nat) (pk : τ) (rt : EbPacketType) (env : Nat → RecvEvent δ)
    (h : ∀ j, env j = .timeout) :
    ∀ (fuel i : Nat) (res : Option EbResult),
      txRxGo parse txid pk rt env i fuel false res =
        (List.replicate fuel pk,
         .err (if fuel = 0 then res else some .EB_ERR_TIMEOUT)) := by
  intro fuel
  induction fuel with
  | zero => intro i res; simp [txRxGo]
  | succ n ih =>
    intro i res
    simp only [txRxGo, h i, attemptOutcome]
    rw [ih (i + 1) (some .EB_ERR_TIMEOUT)]
    cases n <;> simp [List.replicate]

/-- Every transmission the loop performs is the unchanged `tx_packet`. -/
theorem txRxGo_sends_replicate {τ δ π : Type} (parse : δ → Except PyErr (EbPkt π))
    (txid : Nat) (pk : τ) (rt : EbPacketType) (env : Nat → RecvEvent δ) :
    ∀ (fuel i : Nat) (skip : Bool) (res : Option EbResult),
      (txRxGo parse txid pk rt env i fuel skip res).1 =
        List.replicate (txRxGo parse txid pk rt env i fuel skip res).1.length pk := by
  intro fuel
  induction fuel with
  | zero => intro i skip res; simp [txRxGo]
  | succ n ih =>
    intro i skip res
    simp only [txRxGo]
    cases attemptOutcome parse txid rt (env i) with
    | raise e => cases skip <;> simp
    | accept p => cases skip <;> simp
    | retry sk r =>
      cases skip <;> simp only [if_true, if_false, List.nil_append, List.cons_append,
        List.append_nil, Bool.false_eq_true, ite_false, ite_true] <;>
        rw [ih (i + 1) sk (some r)]
      · simp [List.replicate_succ]
      · simp

/-- Setting `skip_tx` suppresses exactly the current attempt's
transmission; everything else the loop does is unchanged. -/
theorem txRxGo_skip_prepend {τ δ π : Type} (parse : δ → Except PyErr (EbPkt π))
    (txid : Nat) (pk : τ) (rt : EbPacketType) (env : Nat → RecvEvent δ)
    (i fuel : Nat) (res : Option EbResult) :
    txRxGo parse txid pk rt env i (fuel + 1) false res =
      (pk :: (txRxGo parse txid pk rt env i (fuel + 1) true res).1,
       (txRxGo parse txid pk rt env i (fuel + 1) true res).2) := by
  simp only [txRxGo]
  cases attemptOutcome parse txid rt (env i) <;> simp

/-- Iterating `_next_transaction_id` from the initial counter 0 yields
`k % 65536` after `k` calls: the ids run 1, 2, 3, …, 0xFFFF, 0, 1, …. -/
theorem next_transaction_id_iterate (k : Nat) :
    next_transaction_id^[k] 0 = k % 65536 := by
  induction k with
  | zero => simp
  | succ n ih =>
    rw [Function.iterate_succ_apply', ih]
    unfold next_transaction_id
    split <;> omega

/-- `EbPacketType(ty.value)` recovers the member. -/
theorem ebPacketTypeOfNat_val (ty : EbPacketType) :
    ebPacketTypeOfNat ty.val = some ty := by
  cases ty <;> rfl

/-- A key is present after `d[k] = v` iff it is `k` or was present
before. -/
theorem dictHasKey_dictSet {κ α : Type} [DecidableEq κ] (d : List (κ × α))
    (k k' : κ) (v : α) :
    dictHasKey (dictSet d k v) k' = true ↔ k' = k ∨ dictHasKey d k' = true := by
  simp only [dictHasKey, dictSet]
  split
  case isTrue h =>
    simp only [List.any_map, List.any_eq_true, Function.comp, decide_eq_true_eq] at *
    constructor
    · rintro ⟨kv, hm, he⟩
      by_cases hkk : kv.1 = k
      · simp only [hkk, if_pos rfl] at he
        exact Or.inl he.symm
      · rw [if_neg hkk] at he
        exact Or.inr ⟨kv, hm, he⟩
    · rintro (rfl | ⟨kv, hm, he⟩)
      · obtain ⟨kv, hm, he⟩ := h
        exact ⟨kv, hm, by simp [he]⟩
      · by_cases hkk : kv.1 = k
        · exact ⟨kv, hm, by rw [if_pos hkk]; exact hkk ▸ he⟩
        · exact ⟨kv, hm, by rw [if_neg hkk]; exact he⟩
  case isFalse h =>
    simp only [List.any_append, List.any_eq_true, Bool.or_eq_true, decide_eq_true_eq,
      List.any_cons, List.any_nil, Bool.or_false]
    constructor
    · rintro (⟨kv, hm, he⟩ | he)
      · exact Or.inr ⟨kv, hm, he⟩
      · exact Or.inl he.symm
    · rintro (rfl | ⟨kv, hm, he⟩)
      · exact Or.inr rfl
      · exact Or.inl ⟨kv, hm, he⟩

/-- Looking up a different key is unaffected by `d[k] = v`. -/
theorem dictFind_dictSet_ne {κ α : Type} [DecidableEq κ] (d : List (κ × α))
    (k k' : κ) (v : α) (h : k' ≠ k) :
    dictFind (dictSet d k v) k' = dictFind d k' := by
  unfold dictSet
  split
  · unfold dictFind
    rw [List.find?_map]
    have hcong : ((fun kv : κ × α => decide (kv.1 = k')) ∘
        (fun kv => if kv.1 = k then (k, v) else kv)) =
        (fun kv : κ × α => decide (kv.1 = k')) := by
      funext kv
      by_cases hkk : kv.1 = k
      · have h1 : ¬ ((k, v).1 = k') := fun hc => h hc.symm
        have h2 : ¬ (kv.1 = k') := by rw [hkk]; exact fun hc => h hc.symm
        simp [Function.comp, hkk, h1, h2]
      · simp [Function.comp, hkk]
    rw [hcong]
    cases hfind : d.find? (fun kv => decide (kv.1 = k')) with
    | none => rfl
    | some kv =>
      have hkv : kv.1 = k' :=
        of_decide_eq_true (List.find?_some (p := fun kv : κ × α => decide (kv.1 = k')) hfind)
      have hne : ¬ kv.1 = k := by rw [hkv]; exact h
      simp [hne]
  · unfold dictFind
    rw [List.find?_append]
    have hone : ([(k, v)].find? (fun kv => decide (kv.1 = k'))) = none := by
      have h1 : ¬ ((k, v).1 = k') := fun hc => h hc.symm
      simp [h1]
    rw [hone, Option.or_none]

/-- `dictFind` succeeds exactly on present keys. -/
theorem dictFind_isSome {κ α : Type} [DecidableEq κ] (d : List (κ × α)) (k : κ) :
    (dictFind d k).isSome = dictHasKey d k := by
  induction d with
  | nil => rfl
  | cons kv tl ih =>
    by_cases hk : kv.1 = k
    · simp [dictFind, dictHasKey, List.find?, hk]
    · simp only [dictFind, dictHasKey, List.find?, List.any_cons] at *
      simp [hk, ih]

/-- Every value stored by `dict.fromkeys` is `None`. -/
theorem dictFromKeys_values_none {κ α : Type} [DecidableEq κ] (ks : List κ) :
    ∀ kv ∈ (dictFromKeys ks : List (κ × Option α)), kv.2 = none := by
  suffices h : ∀ (ks : List κ) (acc : List (κ × Option α)),
      (∀ kv ∈ acc, kv.2 = none) →
      ∀ kv ∈ ks.foldl (fun d k => dictSet d k none) acc, kv.2 = none by
    intro kv hm
    exact h ks [] (by simp) kv hm
  intro ks
  induction ks with
  | nil => intro acc hacc kv hm; exact hacc kv hm
  | cons a tl ih =>
    intro acc hacc kv hm
    refine ih (dictSet acc a none) ?_ kv hm
    intro kv' hm'
    simp only [dictSet] at hm'
    split at hm'
    · obtain ⟨kv'', hm'', he⟩ := List.mem_map.mp hm'
      split at he
      · exact he ▸ rfl
      · exact he ▸ hacc kv'' hm''
    · rcases List.mem_append.mp hm' with h1 | h1
      · exact hacc kv' h1
      · simp only [List.mem_singleton] at h1
        exact h1 ▸ rfl

/-- Keys of `dict.fromkeys(ks)` are exactly the elements of `ks`. -/
theorem dictFromKeys_hasKey {κ α : Type} [DecidableEq κ] (ks : List κ) (k : κ) :
    dictHasKey (dictFromKeys ks : List (κ × Option α)) k = true ↔ k ∈ ks := by
  suffices h : ∀ (ks : List κ) (acc : List (κ × Option α)) (k : κ),
      dictHasKey (ks.foldl (fun d k => dictSet d k none) acc) k = true ↔
        dictHasKey acc k = true ∨ k ∈ ks by
    rw [dictFromKeys, h ks [] k]
    simp [dictHasKey]
  intro ks
  induction ks with
  | nil => intro acc k; simp
  | cons a tl ih =>
    intro acc k
    simp only [List.foldl_cons, ih (dictSet acc a none) k, dictHasKey_dictSet,
      List.mem_cons]
    tauto

/-- A key of `dict.fromkeys(ks)` maps to `None`. -/
theorem dictFromKeys_find {κ α : Type} [DecidableEq κ] (ks : List κ) (k : κ)
    (h : k ∈ ks) : dictFind (dictFromKeys ks : List (κ × Option α)) k = some none := by
  have hkey : dictHasKey (dictFromKeys ks : List (κ × Option α)) k = true :=
    (dictFromKeys_hasKey ks k).mpr h
  have hsome := dictFind_isSome (dictFromKeys ks : List (κ × Option α)) k
  rw [hkey] at hsome
  obtain ⟨x, hx⟩ := Option.isSome_iff_exists.mp hsome
  have : x = none := by
    simp only [dictFind] at hx
    rcases hfind : (dictFromKeys ks : List (κ × Option α)).find?
        (fun kv => kv.1 = k) with _ | kv
    · rw [hfind] at hx; cases hx
    · rw [hfind] at hx
      have hmem := List.mem_of_find?_eq_some hfind
      have := dictFromKeys_values_none (α := α) ks kv hmem
      cases hx
      exact this
  rw [hx, this]

/-- Keys after folding triplet assignments over a dict: the dict's keys
plus the triplets' ids. -/
theorem foldl_dictSet_hasKey (ts : List (Int × ReadOutcome)) :
    ∀ (d : List (Int × Option ReadOutcome)) (k : Int),
      dictHasKey (ts.foldl (fun d t => dictSet d t.1 (some t.2)) d) k = true ↔
        dictHasKey d k = true ∨ k ∈ ts.map Prod.fst := by
  induction ts with
  | nil => intro d k; simp
  | cons t tl ih =>
    intro d k
    simp only [List.foldl_cons, ih (dictSet d t.1 (some t.2)) k, dictHasKey_dictSet,
      List.map_cons, List.mem_cons]
    tauto

/-- A key assigned by none of the triplets keeps its original binding. -/
theorem foldl_dictSet_find_not_mem (ts : List (Int × ReadOutcome)) :
    ∀ (d : List (Int × Option ReadOutcome)) (k : Int), k ∉ ts.map Prod.fst →
      dictFind (ts.foldl (fun d t => dictSet d t.1 (some t.2)) d) k = dictFind d k := by
  induction ts with
  | nil => intro d k _; rfl
  | cons t tl ih =>
    intro d k hk
    simp only [List.map_cons, List.mem_cons, not_or] at hk
    rw [List.foldl_cons, ih (dictSet d t.1 (some t.2)) k hk.2,
      dictFind_dictSet_ne d t.1 k (some t.2) hk.1]

/-- Key membership in the `results` dict of `multi_read`. -/
theorem mrAssemble_hasKey (id_codes : List Int) (ts : List (Int × ReadOutcome))
    (k : Int) :
    dictHasKey (mrAssemble id_codes ts) k = true ↔
      k ∈ id_codes ∨ k ∈ ts.map Prod.fst := by
  rw [mrAssemble, foldl_dictSet_hasKey, dictFromKeys_hasKey]

/-- A requested id for which the response carried no triplet stays bound
to `None` in the `results` dict. -/
theorem mrAssemble_find_untouched (id_codes : List Int) (ts : List (Int × ReadOutcome))
    (k : Int) (hk : k ∈ id_codes) (hts : k ∉ ts.map Prod.fst) :
    dictFind (mrAssemble id_codes ts) k = some none := by
  rw [mrAssemble, foldl_dictSet_find_not_mem ts _ k hts, dictFromKeys_find _ k hk]

/-! ## Claim theorems -/

/-- C1: for every `maxAttempts ≥ 1`, when every attempt of one `_tx_rx`
exchange ends in a receive timeout, the coordinator transmits the request
packet exactly `maxAttempts` times (one transmission per attempt, none
suppressed) and returns the `EB_ERR_TIMEOUT` result, never `None`. -/
theorem spec_C1_retry_budget {τ δ π : Type} (parse : δ → Except PyErr (EbPkt π))
    (txid : Nat) (pk : τ) (rt : EbPacketType) (n : Nat) (env : Nat → RecvEvent δ)
    (hn : 1 ≤ n) (henv : ∀ i, env i = .timeout) :
    tx_rx parse txid pk rt n env =
      (List.replicate n pk, .err (some .EB_ERR_TIMEOUT)) := by
  rw [tx_rx, txRxGo_all_timeout parse txid pk rt env henv n 0 none]
  have h0 : ¬ (n = 0) := by omega
  rw [if_neg h0]

/-- Witness for C1 at `maxAttempts = 3` with an all-timeout socket. -/
theorem spec_C1_retry_budget_witness :
    tx_rx parse_packet 7 ([1, 2, 3] : List Nat) .EB_MT_PING_RSP 3
        (fun _ => .timeout) =
      (List.replicate 3 [1, 2, 3], .err (some .EB_ERR_TIMEOUT)) :=
  spec_C1_retry_budget parse_packet 7 [1, 2, 3] .EB_MT_PING_RSP 3
    (fun _ => .timeout) (by omega) (fun _ => rfl)

/-- C2: a received datagram that decodes with version 0 but a foreign
transaction id consumes the attempt with `lastOutcome = EB_ERR_MSG_FORMAT`
and makes the next attempt receive without retransmitting (the loop
continues with `skip_tx = True`, and `skip_tx` suppresses exactly the
current attempt's transmission), while a timeout, a connection refusal, a
wrong version, a server-reported timeout and a wrong message type all
continue with `skip_tx = False`, i.e. retransmit on the next attempt. -/
theorem spec_C2_stale_id_suppression {τ δ π : Type}
    (parse : δ → Except PyErr (EbPkt π)) (txid : Nat) (pk : τ) (rt : EbPacketType)
    (raw : δ) (p : EbPkt π)
    (hp : parse raw = .ok p) (hv : p.version = 0) (ht : p.transaction_id ≠ txid) :
    attemptOutcome parse txid rt (.datagram raw) =
      (.retry true .EB_ERR_MSG_FORMAT : StepRes π) ∧
    (∀ (env : Nat → RecvEvent δ) (i fuel : Nat) (res : Option EbResult),
        env i = .datagram raw →
        txRxGo parse txid pk rt env i (fuel + 1) false res =
          (pk :: (txRxGo parse txid pk rt env (i + 1) fuel true
              (some .EB_ERR_MSG_FORMAT)).1,
           (txRxGo parse txid pk rt env (i + 1) fuel true
              (some .EB_ERR_MSG_FORMAT)).2)) ∧
    (∀ (env : Nat → RecvEvent δ) (i fuel : Nat) (res : Option EbResult),
        txRxGo parse txid pk rt env i (fuel + 1) false res =
          (pk :: (txRxGo parse txid pk rt env i (fuel + 1) true res).1,
           (txRxGo parse txid pk rt env i (fuel + 1) true res).2)) ∧
    attemptOutcome parse txid rt (.timeout : RecvEvent δ) =
      (.retry false .EB_ERR_TIMEOUT : StepRes π) ∧
    attemptOutcome parse txid rt (.refused : RecvEvent δ) =
      (.retry false .EB_ERR_CONNECTION : StepRes π) ∧
    (∀ (raw2 : δ) (p2 : EbPkt π), parse raw2 = .ok p2 → p2.version ≠ 0 →
        attemptOutcome parse txid rt (.datagram raw2) =
          .retry false .EB_ERR_MSG_FORMAT) ∧
    (∀ (raw2 : δ) (p2 : EbPkt π), parse raw2 = .ok p2 → p2.version = 0 →
        p2.transaction_id = txid → p2.type = .EB_MT_TIMEOUT →
        attemptOutcome parse txid rt (.datagram raw2) =
          .retry false .EB_ERR_TIMEOUT) ∧
    (∀ (raw2 : δ) (p2 : EbPkt π), parse raw2 = .ok p2 → p2.version = 0 →
        p2.transaction_id = txid → p2.type ≠ .EB_MT_TIMEOUT → p2.type ≠ rt →
        attemptOutcome parse txid rt (.datagram raw2) =
          .retry false .EB_ERR_MSG_FORMAT) := by
  have hstale : attemptOutcome parse txid rt (.datagram raw) =
      (.retry true .EB_ERR_MSG_FORMAT : StepRes π) := by
    simp [attemptOutcome, hp, hv, ht]
  refine ⟨hstale, ?_, ?_, rfl, rfl, ?_, ?_, ?_⟩
  · intro env i fuel res henvi
    simp [txRxGo, henvi, hstale]
  · intro env i fuel res
    exact txRxGo_skip_prepend parse txid pk rt env i fuel res
  · intro raw2 p2 hp2 hv2
    simp [attemptOutcome, hp2, hv2]
  · intro raw2 p2 hp2 hv2 ht2 hty2
    simp [attemptOutcome, hp2, hv2, ht2, hty2]
  · intro raw2 p2 hp2 hv2 ht2 hty2 hrt2
    simp [attemptOutcome, hp2, hv2, ht2, hty2, hrt2]

/-- Witness for C2: a version-0 `PING_RSP` datagram carrying transaction
id 5 while id 1 is outstanding is consumed without a retransmission. -/
theorem spec_C2_stale_id_suppression_witness :
    attemptOutcome parse_packet 1 .EB_MT_PING_RSP
        (.datagram [0, 0, 0, 5, 0x20, 0, 0, 0]) =
      (.retry true .EB_ERR_MSG_FORMAT : StepRes (List Nat)) ∧
    txRxGo parse_packet 1 ([9] : List Nat) .EB_MT_PING_RSP
        (fun _ => .datagram [0, 0, 0, 5, 0x20, 0, 0, 0]) 0 (1 + 1) false none =
      (([9] : List Nat) :: (txRxGo parse_packet 1 ([9] : List Nat) .EB_MT_PING_RSP
          (fun _ => .datagram [0, 0, 0, 5, 0x20, 0, 0, 0]) 1 1 true
          (some .EB_ERR_MSG_FORMAT)).1,
       (txRxGo parse_packet 1 ([9] : List Nat) .EB_MT_PING_RSP
          (fun _ => .datagram [0, 0, 0, 5, 0x20, 0, 0, 0]) 1 1 true
          (some .EB_ERR_MSG_FORMAT)).2) := by
  have h := spec_C2_stale_id_suppression parse_packet 1 ([9] : List Nat)
    .EB_MT_PING_RSP [0, 0, 0, 5, 0x20, 0, 0, 0] ⟨0, 5, .EB_MT_PING_RSP, []⟩
    rfl rfl (by decide)
  exact ⟨h.1, h.2.1 (fun _ => .datagram [0, 0, 0, 5, 0x20, 0, 0, 0]) 0 1 none rfl⟩

/-- C4 (code bug): for an input shorter than 8 bytes, `_parse_packet`
does not return a typed error — the error-message f-string evaluates
`len(packet)` on the not-yet-assigned local `packet` and raises
`UnboundLocalError` before the `return None` is reached. Shown here on
the empty datagram and on a 4-byte datagram. -/
theorem spec_C4_short_packet_crash :
    parse_packet [] = .error .nameError ∧
    parse_packet [0, 0, 0, 1] = .error .nameError :=
  ⟨rfl, rfl⟩

/-- C5: starting from the initial counter 0, the assigned transaction ids
are 1, 2, 3, …, wrapping from 0xFFFF to 0 (`next_transaction_id^[k] 0 =
k % 65536`, and `next_transaction_id 0xFFFF = 0`); `_create_packet`
advances the counter exactly once and embeds the new id in the header;
and every transmission of a `_tx_rx` exchange is the identical request
packet, so retransmissions reuse the id baked into it. -/
theorem spec_C5_transaction_ids :
    (∀ k : Nat, next_transaction_id^[k] initState.transaction_id = k % 65536) ∧
    next_transaction_id 0xFFFF = 0 ∧
    (∀ (st : CState) (ty : EbPacketType) (pl : List Nat),
        (create_packet st ty pl).1.transaction_id =
          next_transaction_id st.transaction_id ∧
        (pl.length ≤ 0xFFFF →
          (create_packet st ty pl).2 =
            some (u16be 0 ++ u16be (next_transaction_id st.transaction_id) ++
              u16be ty.val ++ u16be pl.length ++ pl))) ∧
    (∀ (τ δ π : Type) (parse : δ → Except PyErr (EbPkt π)) (txid : Nat) (pk : τ)
        (rt : EbPacketType) (n : Nat) (env : Nat → RecvEvent δ),
        (tx_rx parse txid pk rt n env).1 =
          List.replicate (tx_rx parse txid pk rt n env).1.length pk) := by
  refine ⟨fun k => next_transaction_id_iterate k, rfl, ?_, ?_⟩
  · intro st ty pl
    refine ⟨rfl, fun h => ?_⟩
    have hn : ¬ pl.length > 0xFFFF := by omega
    simp [create_packet, if_neg hn]
  · intro τ δ π parse txid pk rt n env
    exact txRxGo_sends_replicate parse txid pk rt env n 0 false none

/-- Witness for C5 at concrete inputs. -/
theorem spec_C5_transaction_ids_witness :
    next_transaction_id^[3] initState.transaction_id = 3 % 65536 ∧
    (create_packet ⟨0⟩ .EB_MT_PING_REQ [7]).2 =
      some (u16be 0 ++ u16be (next_transaction_id 0) ++
        u16be EbPacketType.EB_MT_PING_REQ.val ++ u16be 1 ++ [7]) ∧
    (tx_rx parse_packet 7 ([1] : List Nat) .EB_MT_PING_RSP 2
        (fun _ => .timeout)).1 =
      List.replicate (tx_rx parse_packet 7 ([1] : List Nat) .EB_MT_PING_RSP 2
        (fun _ => .timeout)).1.length [1] :=
  ⟨spec_C5_transaction_ids.1 3,
   (spec_C5_transaction_ids.2.2.1 ⟨0⟩ .EB_MT_PING_REQ [7]).2 (by decide),
   spec_C5_transaction_ids.2.2.2 (List Nat) (List Nat) (List Nat) parse_packet 7
     [1] .EB_MT_PING_RSP 2 (fun _ => .timeout)⟩

/-- The transaction counter never leaves `[0, 0xFFFF]`. -/
theorem next_transaction_id_le (t : Nat) : next_transaction_id t ≤ 0xFFFF := by
  unfold next_transaction_id
  split <;> omega

/-- Recomposing the two bytes of a big-endian 16-bit field. -/
theorem u16be_recompose (n : Nat) (h : n ≤ 0xFFFF) :
    n / 256 % 256 * 256 + n % 256 = n := by omega

/-- All message type values fit in 16 bits. -/
theorem ebPacketTypeVal_le (ty : EbPacketType) : ty.val ≤ 0xFFFF := by
  cases ty <;> decide

/-- Reading the header's payload-length field (bytes 6 and 7). -/
theorem rd16_cons8_6 (x0 x1 x2 x3 x4 x5 x6 x7 : Nat) (l : List Nat) :
    rd16 (x0 :: x1 :: x2 :: x3 :: x4 :: x5 :: x6 :: x7 :: l) 6 = x6 * 256 + x7 := rfl

/-- C3 (amended): for every message type and payload accepted by the
encoder, decoding the encoded packet reproduces the message type and the
payload bytes unchanged, and the header's payload-length field (bytes
6-7 of the encoding) equals `len(payload)`; the parsed packet itself does
not carry the payload-length field (see the counterexample). -/
theorem spec_C3_roundtrip (st : CState) (ty : EbPacketType) (pl : List Nat)
    (h : pl.length ≤ 0xFFFF) (raw : List Nat)
    (hraw : (create_packet st ty pl).2 = some raw) :
    parse_packet raw = .ok ⟨0, next_transaction_id st.transaction_id, ty, pl⟩ ∧
    rd16 raw 6 = pl.length := by
  have hn : ¬ pl.length > 0xFFFF := by omega
  simp only [create_packet, if_neg hn, Option.some.injEq] at hraw
  subst hraw
  constructor
  · simp only [u16be, List.cons_append, List.nil_append, Nat.zero_div, Nat.zero_mod,
      parse_packet]
    rw [u16be_recompose ty.val (ebPacketTypeVal_le ty), ebPacketTypeOfNat_val]
    simp [u16be_recompose (next_transaction_id st.transaction_id)
      (next_transaction_id_le st.transaction_id)]
  · simp only [u16be, List.cons_append, List.nil_append]
    rw [rd16_cons8_6]
    exact u16be_recompose pl.length h

/-- Witness for C3 at a concrete packet. -/
theorem spec_C3_roundtrip_witness :
    parse_packet ((create_packet ⟨4⟩ .EB_MT_READ_DATA_REQ [1, 2, 3]).2.getD []) =
      .ok ⟨0, next_transaction_id 4, .EB_MT_READ_DATA_REQ, [1, 2, 3]⟩ ∧
    rd16 ((create_packet ⟨4⟩ .EB_MT_READ_DATA_REQ [1, 2, 3]).2.getD []) 6 = 3 :=
  spec_C3_roundtrip ⟨4⟩ .EB_MT_READ_DATA_REQ [1, 2, 3] (by decide)
    ((create_packet ⟨4⟩ .EB_MT_READ_DATA_REQ [1, 2, 3]).2.getD []) rfl

/-- Counterexample to C3 as stated: the dict returned by `_parse_packet`
exposes only `version`, `transaction_id`, `type` and `payload`; looking
up `payload_length` on the decoded packet fails, so the decoded packet
does not expose `payloadLength == len(payload)`. -/
theorem spec_C3_counterexample :
    parse_packet ((create_packet ⟨0⟩ .EB_MT_PING_REQ [7, 8]).2.getD []) =
      .ok ⟨0, 1, .EB_MT_PING_REQ, [7, 8]⟩ ∧
    dictFind (packet_dict ⟨0, 1, .EB_MT_PING_REQ, [7, 8]⟩) "payload_length" = none ∧
    (packet_dict ⟨0, 1, .EB_MT_PING_REQ, [7, 8]⟩).map Prod.fst =
      ["version", "transaction_id", "type", "payload"] := by
  refine ⟨rfl, ?_, rfl⟩
  simp [dictFind, packet_dict]

/-- Packing a list of coerced floats packs each element with the chosen
width. -/
theorem packList_map_float (u : Bool) (qs : List Rat) :
    packList u (qs.map PyValue.float) =
      qs.map (fun q => if u then MsgItem.f32 q else MsgItem.f64 q) := by
  induction qs with
  | nil => rfl
  | cons q tl ih => simp [packList, pack, ih]

/-- C6: a declared `EB_TYPE_FLOAT` forces single-precision encoding of
the (coerced) value, and a declared `EB_TYPE_DOUBLE` coerces the value —
elementwise for an array — to floating point before encoding it at
64-bit width; in particular `single_write(id, 3, EB_TYPE_DOUBLE)` encodes
a 64-bit float, not an integer. -/
theorem spec_C6_write_type_coercion :
    (∀ (idc : Int) (v : PyValue) (q : Rat), pyFloat v = some q →
        single_write_payload idc v (some EB_TYPE_DOUBLE) =
          .ok [.int idc, .f64 q]) ∧
    (∀ (idc : Int) (v : PyValue) (q : Rat), pyFloat v = some q →
        single_write_payload idc v (some EB_TYPE_FLOAT) =
          .ok [.int idc, .f32 q]) ∧
    (∀ (idc : Int) (vs : List PyValue) (qs : List Rat),
        vs.mapM pyFloat = some qs →
        single_write_payload idc (.list vs) (some EB_TYPE_DOUBLE) =
          .ok [.int idc, .arr (qs.map MsgItem.f64)]) ∧
    (∀ (idc : Int) (vs : List PyValue) (qs : List Rat),
        vs.mapM pyFloat = some qs →
        single_write_payload idc (.list vs) (some EB_TYPE_FLOAT) =
          .ok [.int idc, .arr (qs.map MsgItem.f32)]) ∧
    (∀ idc : Int, single_write_payload idc (.int 3) (some EB_TYPE_DOUBLE) =
      .ok [.int idc, .f64 3]) := by
  refine ⟨?_, ?_, ?_, ?_, fun idc => rfl⟩
  · intro idc v q hq
    cases v <;>
      simp_all [pyFloat, single_write_payload, EB_TYPE_DOUBLE, EB_TYPE_FLOAT, pack]
  · intro idc v q hq
    cases v <;>
      simp_all [pyFloat, single_write_payload, EB_TYPE_DOUBLE, EB_TYPE_FLOAT, pack]
  · intro idc vs qs hqs
    have hqs' : List.mapM.loop pyFloat vs [] = some qs := hqs
    simp [single_write_payload, EB_TYPE_DOUBLE, EB_TYPE_FLOAT, hqs, hqs', pack,
      packList_map_float]
  · intro idc vs qs hqs
    have hqs' : List.mapM.loop pyFloat vs [] = some qs := hqs
    simp [single_write_payload, EB_TYPE_DOUBLE, EB_TYPE_FLOAT, hqs, hqs', pack,
      packList_map_float]

/-- Witness for C6 at concrete writes. -/
theorem spec_C6_write_type_coercion_witness :
    single_write_payload 1 (.int 3) (some EB_TYPE_DOUBLE) =
      .ok [.int 1, .f64 3] ∧
    single_write_payload 1 (.float 2) (some EB_TYPE_FLOAT) =
      .ok [.int 1, .f32 2] ∧
    single_write_payload 1 (.list [.int 4, .float 5]) (some EB_TYPE_DOUBLE) =
      .ok [.int 1, .arr (([4, 5] : List Rat).map MsgItem.f64)] :=
  ⟨spec_C6_write_type_coercion.2.2.2.2 1,
   spec_C6_write_type_coercion.2.1 1 (.float 2) 2 rfl,
   spec_C6_write_type_coercion.2.2.1 1 [.int 4, .float 5] [4, 5] rfl⟩

/-- C7: an out-of-range id makes `single_write` return
`EB_ERR_WRONG_PARAMETER` with no transmission, no access to the socket
environment, and the transaction counter untouched. -/
theorem spec_C7_out_of_range_write (st : CState) (idc : Int) (v : PyValue)
    (ty : Option Nat) (env : Nat → RecvEvent (Except PyErr PacketI))
    (h : idc < 0 ∨ idc > 0xFFFF) :
    single_write st idc v ty env = (st, [], .result .EB_ERR_WRONG_PARAMETER) := by
  unfold single_write
  rw [if_pos h]

/-- Witness for C7: the spec's own example `singleWrite(0x10000, 1.0,
FLOAT64)`. -/
theorem spec_C7_out_of_range_write_witness :
    single_write ⟨0⟩ 0x10000 (.float 1) (some EB_TYPE_DOUBLE)
        (fun _ => .timeout) =
      (⟨0⟩, [], .result .EB_ERR_WRONG_PARAMETER) :=
  spec_C7_out_of_range_write ⟨0⟩ 0x10000 (.float 1) (some EB_TYPE_DOUBLE)
    (fun _ => .timeout) (by norm_num)

/-- Counterexample to C8 as stated: `multi_read` passes 3 (not up to 4)
attempts to the coordinator — with every attempt timing out it performs
exactly 3 transmissions, never 4. -/
theorem spec_C8_counterexample :
    (multi_read ⟨0⟩ [1] (fun _ => .timeout)).2.1.length = 3 ∧
    ¬ (multi_read ⟨0⟩ [1] (fun _ => .timeout)).2.1.length = 4 := by
  exact ⟨rfl, by decide⟩

/-- C8 (amended): all three client calls — `multi_read`, `single_write`
and `get_connected_clients` — pass the attempt budget 3 to `_tx_rx` (the
coordinator's own default of 4 is never used): under an all-timeout
socket each performs exactly 3 transmissions. -/
theorem spec_C8_attempt_budgets (st : CState)
    (env : Nat → RecvEvent (Except PyErr PacketI)) (h : ∀ i, env i = .timeout)
    (ids : List Int) (hids : ids.any (fun id => id < 0 ∨ id > 0xFFFF) = false)
    (idc : Int) (hidc : ¬ (idc < 0 ∨ idc > 0xFFFF))
    (v : PyValue) (ty : Option Nat) (pl : List MsgItem)
    (hpl : single_write_payload idc v ty = .ok pl) :
    (multi_read st ids env).2.1.length = 3 ∧
    (single_write st idc v ty env).2.1.length = 3 ∧
    (get_connected_clients st env).2.1.length = 3 := by
  have htx : ∀ (txid : Nat) (pk : PacketI) (rt : EbPacketType),
      tx_rx parseI txid pk rt 3 env =
        (List.replicate 3 pk, .err (some .EB_ERR_TIMEOUT)) := by
    intro txid pk rt
    rw [tx_rx, txRxGo_all_timeout parseI txid pk rt env h 3 0 none]
    norm_num
  refine ⟨?_, ?_, ?_⟩
  · simp only [multi_read, hids, Bool.false_eq_true, if_false, create_packetI]
    rw [htx]
    simp
  · simp only [single_write, if_neg hidc, hpl, create_packetI]
    rw [htx]
    simp
  · simp only [get_connected_clients, create_packetI]
    rw [htx]
    simp

/-- Witness for C8 at concrete calls with an all-timeout socket. -/
theorem spec_C8_attempt_budgets_witness :
    (multi_read ⟨0⟩ [1] (fun _ => .timeout)).2.1.length = 3 ∧
    (single_write ⟨0⟩ 1 (.int 5) none (fun _ => .timeout)).2.1.length = 3 ∧
    (get_connected_clients ⟨0⟩ (fun _ => .timeout)).2.1.length = 3 :=
  spec_C8_attempt_budgets ⟨0⟩ (fun _ => .timeout) (fun _ => rfl) [1] (by decide)
    1 (by decide) (.int 5) none [.int 1, .int 5] rfl

/-- The socket environment of the C9 counterexample: the server answers
with a triplet for id 2 although only id 1 was requested. -/
def envC9 : Nat → RecvEvent (Except PyErr PacketI) :=
  fun _ => .datagram (.ok ⟨0, 1, .EB_MT_READ_DATA_RSP, [.int 2, .int 0, .int 42]⟩)

/-- The outcome decoded from that triplet. -/
def outC9 : ReadOutcome := ⟨2, 0, "EB_OK", none, some 1, some (.int 42)⟩

/-- Counterexample to C9 as stated: `multi_read([1])` against `envC9`
returns a mapping whose key list is `[1, 2]`, not exactly the requested
`[1]` — an in-range response id that was never requested is added to the
mapping. -/
theorem spec_C9_counterexample :
    (multi_read ⟨0⟩ [1] envC9).2.2 = .dict [(1, none), (2, some outC9)] ∧
    [(1, (none : Option ReadOutcome)), (2, some outC9)].map Prod.fst ≠ [1] :=
  ⟨rfl, by decide⟩

/-- Helper: whenever `multi_read` returns a dict, that dict is
`mrAssemble` of the requested ids and the decoded triplets. -/
theorem multi_read_dict_shape (st : CState) (ids : List Int)
    (env : Nat → RecvEvent (Except PyErr PacketI)) (st2 : CState)
    (txs : List PacketI) (d : List (Int × Option ReadOutcome))
    (h : multi_read st ids env = (st2, txs, .dict d)) :
    ∃ ts, d = mrAssemble ids ts := by
  unfold multi_read at h
  split at h
  · simp_all
  · dsimp only at h
    split at h <;> simp_all
    case _ ts _ _ =>
      split at h <;> simp_all
      exact ⟨_, h.2.2.symm⟩

/-- C9 (amended): a `multi_read` mapping always contains every requested
id as a key; a requested id for which the response carried no triplet is
bound to `None` rather than missing; but the key set is the requested ids
together with the (in-range) ids of the response triplets, so an
unrequested response id enlarges it. -/
theorem spec_C9_result_mapping :
    (∀ (ids : List Int) (ts : List (Int × ReadOutcome)) (k : Int),
        dictHasKey (mrAssemble ids ts) k = true ↔
          k ∈ ids ∨ k ∈ ts.map Prod.fst) ∧
    (∀ (ids : List Int) (ts : List (Int × ReadOutcome)) (k : Int),
        k ∈ ids → k ∉ ts.map Prod.fst →
        dictFind (mrAssemble ids ts) k = some none) ∧
    (∀ (st : CState) (ids : List Int)
        (env : Nat → RecvEvent (Except PyErr PacketI)) (st2 : CState)
        (txs : List PacketI) (d : List (Int × Option ReadOutcome)),
        multi_read st ids env = (st2, txs, .dict d) →
        ∀ k ∈ ids, dictHasKey d k = true) := by
  refine ⟨fun ids ts k => mrAssemble_hasKey ids ts k,
    fun ids ts k hk hts => mrAssemble_find_untouched ids ts k hk hts, ?_⟩
  intro st ids env st2 txs d h k hk
  obtain ⟨ts, rfl⟩ := multi_read_dict_shape st ids env st2 txs d h
  exact (mrAssemble_hasKey ids ts k).mpr (Or.inl hk)

/-- Witness for C9 at the counterexample scenario. -/
theorem spec_C9_result_mapping_witness :
    dictHasKey (mrAssemble [1, 2] [(2, outC9)]) 1 = true ∧
    dictFind (mrAssemble [1, 2] [(2, outC9)]) 1 = some none ∧
    dictHasKey [(1, (none : Option ReadOutcome)), (2, some outC9)] 1 = true :=
  ⟨(spec_C9_result_mapping.1 [1, 2] [(2, outC9)] 1).mpr (Or.inl (by simp)),
   spec_C9_result_mapping.2.1 [1, 2] [(2, outC9)] 1 (by simp) (by simp),
   spec_C9_result_mapping.2.2 ⟨0⟩ [1] envC9 ⟨1⟩
     [⟨0, 1, .EB_MT_READ_DATA_REQ, [.int 1]⟩] [(1, none), (2, some outC9)] rfl
     1 (by simp)⟩

/-- C10: a `single_write` whose accepted response carries an empty
payload (no id/result-code pairs) returns `EB_ERR_NOT_FOUND` — the
loop's initial result code — rather than a format error or `None`. -/
theorem spec_C10_empty_write_response (st : CState) (idc : Int) (v : PyValue)
    (ty : Option Nat) (env : Nat → RecvEvent (Except PyErr PacketI))
    (pl : List MsgItem) (txs : List PacketI) (resp : PacketI)
    (h1 : ¬ (idc < 0 ∨ idc > 0xFFFF))
    (h2 : single_write_payload idc v ty = .ok pl)
    (h3 : tx_rx parseI (next_transaction_id st.transaction_id)
        (⟨0, next_transaction_id st.transaction_id, .EB_MT_WRITE_DATA_REQ, pl⟩ : PacketI)
        .EB_MT_WRITE_DATA_RSP 3 env = (txs, .ok resp))
    (h4 : resp.payload = []) :
    single_write st idc v ty env =
      (⟨next_transaction_id st.transaction_id⟩, txs, .result .EB_ERR_NOT_FOUND) := by
  simp only [single_write, if_neg h1, h2, create_packetI]
  rw [h3]
  dsimp only
  rw [h4]
  rfl

/-- The socket environment of the C10 witness: an accepted write
response with an empty payload. -/
def envC10 : Nat → RecvEvent (Except PyErr PacketI) :=
  fun _ => .datagram (.ok ⟨0, 1, .EB_MT_WRITE_DATA_RSP, []⟩)

/-- Witness for C10 at a concrete write. -/
theorem spec_C10_empty_write_response_witness :
    single_write ⟨0⟩ 1 (.int 5) none envC10 =
      (⟨1⟩, [⟨0, 1, .EB_MT_WRITE_DATA_REQ, [.int 1, .int 5]⟩],
       .result .EB_ERR_NOT_FOUND) :=
  spec_C10_empty_write_response ⟨0⟩ 1 (.int 5) none envC10 [.int 1, .int 5]
    [⟨0, 1, .EB_MT_WRITE_DATA_REQ, [.int 1, .int 5]⟩]
    ⟨0, 1, .EB_MT_WRITE_DATA_RSP, []⟩ (by decide) rfl rfl rfl

end Electabuzz
